import Mathlib

/-!
Verification development for the dashboard route handler of `src/app/app.py`:
a Flask application with a single route `GET /dashboard` that reads the
optional query parameter `widget` (defaulting to a fixed HTML literal) and
renders it verbatim into an HTML template.
-/

namespace BioDrop

/-- An inbound HTTP GET request to `/dashboard`, as the handler observes it:
the parsed query string, an ordered list of key/value pairs (Werkzeug's
`request.args`), and the request headers. -/
structure Request where
  queryParams : List (String × String)
  headers : List (String × String)
deriving DecidableEq

/-- Embedding of `request.args.get(key, default)`: Werkzeug's `MultiDict.get`
returns the value of the first occurrence of `key` in the parsed query
string, or the default when no occurrence exists. -/
def argsGet (params : List (String × String)) (key dflt : String) : String :=
  match params.find? (fun p => p.1 == key) with
  | some p => p.2
  | none => dflt

/-- The default widget code literal from `app.py`. -/
def defaultWidget : String := "<div>Welcome to your dashboard!</div>"

/-- Modelled from the spec: the template file `templates/dashboard.html` is not
among the source files; per the spec it is an HTML document with a single
placeholder into which `widget_code` is embedded directly, without escaping.
This is the fixed markup of the document before the placeholder. -/
def htmlBefore : String := "<html><head><title>Dashboard</title></head><body>"

/-- Modelled from the spec: the fixed markup of `templates/dashboard.html`
after its single placeholder. -/
def htmlAfter : String := "</body></html>"

/-- Embedding of `render_template('dashboard.html', widget_code=w)`: the
value `w` is substituted verbatim (unescaped) at the template's single
placeholder. -/
def renderDashboardTemplate (widget_code : String) : String :=
  htmlBefore ++ widget_code ++ htmlAfter

/-- An HTTP response: status code, content type, and body. -/
structure Response where
  status : Nat
  contentType : String
  body : String
deriving DecidableEq

/-- The process-wide mutable state visible to a request handler. The Flask
application object's route table is fixed after startup; the only
observable mutable effects a handler could have are records of writes or
log lines, collected here. -/
structure ServerState where
  log : List String
deriving DecidableEq

/-- Embedding of the `dashboard` view function of `app.py`, with the process
state threaded explicitly. The body performs no write and no logging, so
the state passes through unchanged:

    widget_code = request.args.get('widget', '<div>Welcome to your dashboard!</div>')
    return render_template('dashboard.html', widget_code=widget_code)
-/
def dashboard (r : Request) (σ : ServerState) : Response × ServerState :=
  let widget_code := argsGet r.queryParams "widget" defaultWidget
  ({ status := 200
     contentType := "text/html"
     body := renderDashboardTemplate widget_code }, σ)

/-- The response produced for a request from a given process state. -/
def respOf (r : Request) (σ : ServerState) : Response := (dashboard r σ).1

/-- Number of positions at which `pat` occurs as a contiguous substring
of `s` (the empty pattern occurs at every position, including the end). -/
def countOccur (s pat : String) : Nat :=
  (List.range (s.length + 1)).countP (fun i => (s.data.drop i).take pat.length == pat.data)

/-- Helper: the response is determined by the looked-up widget value. -/
theorem respOf_eq (r : Request) (σ : ServerState) :
    respOf r σ =
      { status := 200
        contentType := "text/html"
        body := renderDashboardTemplate (argsGet r.queryParams "widget" defaultWidget) } := rfl

/-- Helper: a string occurs at least once in any concatenation that
embeds it. -/
theorem one_le_countOccur_embed (a b c : String) :
    1 ≤ countOccur (a ++ b ++ c) b := by
  have hmem : a.length ∈ List.range ((a ++ b ++ c).length + 1) := by
    rw [List.mem_range]
    have : (a ++ b ++ c).length = a.length + b.length + c.length := by
      simp [String.length_append]
    omega
  have hp : (((a ++ b ++ c).data.drop a.length).take b.length == b.data) = true := by
    have hdata : (a ++ b ++ c).data = a.data ++ (b.data ++ c.data) := by
      simp [String.data_append]
    rw [hdata]
    have hlena : a.length = a.data.length := rfl
    have hlenb : b.length = b.data.length := rfl
    rw [hlena, List.drop_left, hlenb, List.take_left]
    simp
  have hpos : 0 < (List.range ((a ++ b ++ c).length + 1)).countP
      (fun i => (((a ++ b ++ c).data.drop i).take b.length == b.data)) := by
    rw [List.countP_pos_iff]
    exact ⟨a.length, hmem, hp⟩
  exact hpos

/-- C1 (counterexample): as stated, the claim fails — for the string `s = ""`,
the response body does not contain `s` exactly once: the empty string occurs
at every position of the nonempty body, so its occurrence count is not 1. -/
theorem c1_counterexample :
    ¬ (countOccur (respOf ⟨[("widget", "")], []⟩ ⟨[]⟩).body "" = 1) := by decide

/-- C1 (amended): for every string `s`, a GET request to `/dashboard` with
query parameter `widget=s` returns HTTP 200 whose body is the template with
`s` substituted unescaped at the placeholder position (hence `s` occurs at
least once; the count is exactly one only when `s` occurs nowhere else in
the rendered body). -/
theorem c1_substitution (s : String) (hs : List (String × String)) (σ : ServerState) :
    (respOf ⟨[("widget", s)], hs⟩ σ).status = 200 ∧
    (respOf ⟨[("widget", s)], hs⟩ σ).body = htmlBefore ++ s ++ htmlAfter ∧
    1 ≤ countOccur (respOf ⟨[("widget", s)], hs⟩ σ).body s := by
  refine ⟨rfl, rfl, ?_⟩
  exact one_le_countOccur_embed htmlBefore s htmlAfter

/-- C2: for the input `widget=<script>alert(1)</script>`, the response body
contains the literal substring `<script>alert(1)</script>` unescaped, at the
placeholder position — the output is not HTML-encoded. -/
theorem c2_xss_unescaped :
    (respOf ⟨[("widget", "<script>alert(1)</script>")], []⟩ ⟨[]⟩).body
      = htmlBefore ++ "<script>alert(1)</script>" ++ htmlAfter ∧
    1 ≤ countOccur (respOf ⟨[("widget", "<script>alert(1)</script>")], []⟩ ⟨[]⟩).body
        "<script>alert(1)</script>" :=
  ⟨rfl, one_le_countOccur_embed htmlBefore "<script>alert(1)</script>" htmlAfter⟩

/-- C3: a GET request to `/dashboard` whose query string carries no `widget`
parameter returns HTTP 200 whose body contains exactly the literal default
`<div>Welcome to your dashboard!</div>` at the placeholder position. -/
theorem c3_default_when_absent (ps hs : List (String × String)) (σ : ServerState)
    (h : ps.find? (fun p => p.1 == "widget") = none) :
    (respOf ⟨ps, hs⟩ σ).status = 200 ∧
    (respOf ⟨ps, hs⟩ σ).body = htmlBefore ++ defaultWidget ++ htmlAfter := by
  refine ⟨rfl, ?_⟩
  rw [respOf_eq]
  simp [argsGet, h, renderDashboardTemplate]

/-- Witness for C3 at the concrete request with an empty query string. -/
theorem c3_witness :
    (respOf ⟨[], []⟩ ⟨[]⟩).status = 200 ∧
    (respOf ⟨[], []⟩ ⟨[]⟩).body = htmlBefore ++ defaultWidget ++ htmlAfter :=
  c3_default_when_absent [] [] ⟨[]⟩ rfl

/-- C4: when `widget` is present but empty (`widget=`), the empty string is
substituted, not the default: the default applies only when the parameter is
wholly absent. -/
theorem c4_empty_not_default (ps hs : List (String × String)) (σ : ServerState) (k : String)
    (h : ps.find? (fun p => p.1 == "widget") = some (k, "")) :
    (respOf ⟨ps, hs⟩ σ).body = htmlBefore ++ "" ++ htmlAfter ∧
    (respOf ⟨ps, hs⟩ σ).body ≠ htmlBefore ++ defaultWidget ++ htmlAfter := by
  have hb : (respOf ⟨ps, hs⟩ σ).body = htmlBefore ++ "" ++ htmlAfter := by
    rw [respOf_eq]
    simp [argsGet, h, renderDashboardTemplate]
  refine ⟨hb, ?_⟩
  rw [hb]
  decide

/-- Witness for C4 at the concrete request with query string `widget=`. -/
theorem c4_witness :
    (respOf ⟨[("widget", "")], []⟩ ⟨[]⟩).body = htmlBefore ++ "" ++ htmlAfter ∧
    (respOf ⟨[("widget", "")], []⟩ ⟨[]⟩).body ≠ htmlBefore ++ defaultWidget ++ htmlAfter :=
  c4_empty_not_default [("widget", "")] [] ⟨[]⟩ "widget" rfl

/-- C5: the handler is deterministic across the threaded process state: two
invocations carrying the same `widget` parameter value — the second run from
the state the first left behind — yield byte-identical response bodies (no
hidden state affects rendering). -/
theorem c5_deterministic (r₁ r₂ : Request) (σ : ServerState)
    (h : argsGet r₁.queryParams "widget" defaultWidget
        = argsGet r₂.queryParams "widget" defaultWidget) :
    (dashboard r₂ (dashboard r₁ σ).2).1.body = (dashboard r₁ σ).1.body := by
  simp [dashboard, renderDashboardTemplate, h]

/-- Witness for C5: repeating the identical request yields an identical body. -/
theorem c5_witness :
    (dashboard ⟨[("widget", "a")], []⟩ (dashboard ⟨[("widget", "a")], []⟩ ⟨[]⟩).2).1.body
      = (dashboard ⟨[("widget", "a")], []⟩ ⟨[]⟩).1.body :=
  c5_deterministic ⟨[("widget", "a")], []⟩ ⟨[("widget", "a")], []⟩ ⟨[]⟩ rfl

/-- C6: every GET request to `/dashboard`, with any `widget` value or none,
produces a response with status 200 and content type text/html. -/
theorem c6_status_content_type (r : Request) (σ : ServerState) :
    (respOf r σ).status = 200 ∧ (respOf r σ).contentType = "text/html" :=
  ⟨rfl, rfl⟩

/-- C7: the handler never rejects input: it is a total function, every request
(any string value of `widget`, or none, normalized via the default) yields
status 200 with the rendered template — no error result is distinguished. -/
theorem c7_total_accepts (r : Request) (σ : ServerState) :
    (respOf r σ).status = 200 ∧
    (respOf r σ).body
      = renderDashboardTemplate (argsGet r.queryParams "widget" defaultWidget) :=
  ⟨rfl, rfl⟩

/-- C8: handling a request has no side effect beyond producing the response:
the threaded process state (including the record of writes and log lines) is
returned unchanged. -/
theorem c8_no_side_effects (r : Request) (σ : ServerState) :
    (dashboard r σ).2 = σ := rfl

/-- C9: when the query string carries `widget` more than once, the handler
uses the first occurrence value and ignores the rest. -/
theorem c9_first_occurrence (ps₁ : List (String × String)) (v : String)
    (ps₂ hs : List (String × String)) (σ : ServerState)
    (h : ∀ p ∈ ps₁, p.1 ≠ "widget") :
    (respOf ⟨ps₁ ++ ("widget", v) :: ps₂, hs⟩ σ).body = htmlBefore ++ v ++ htmlAfter := by
  have hfind : ∀ (l : List (String × String)), (∀ p ∈ l, p.1 ≠ "widget") →
      (l ++ ("widget", v) :: ps₂).find? (fun p => p.1 == "widget") = some ("widget", v) := by
    intro l
    induction l with
    | nil =>
      intro _
      simp [List.find?]
    | cons p ps ih =>
      intro hl
      have hp : (p.1 == "widget") = false :=
        beq_eq_false_iff_ne.mpr (hl p (List.mem_cons_self p ps))
      simp only [List.cons_append, List.find?, hp]
      exact ih (fun q hq => hl q (List.mem_cons_of_mem p hq))
  rw [respOf_eq]
  simp [argsGet, hfind ps₁ h, renderDashboardTemplate]

/-- Witness for C9: with `widget` repeated, the first value `a` is rendered. -/
theorem c9_witness :
    (respOf ⟨[("x", "1")] ++ ("widget", "a") :: [("widget", "b")], []⟩ ⟨[]⟩).body
      = htmlBefore ++ "a" ++ htmlAfter :=
  c9_first_occurrence [("x", "1")] "a" [("widget", "b")] [] ⟨[]⟩ (by decide)

/-- C10: noninterference — the response body depends only on the `widget`
query parameter: two requests agreeing on `widget` (same first occurrence, or
both absent) but differing in other query parameters, headers, or process
state produce identical bodies. -/
theorem c10_noninterference (r₁ r₂ : Request) (σ₁ σ₂ : ServerState)
    (h : r₁.queryParams.find? (fun p => p.1 == "widget")
        = r₂.queryParams.find? (fun p => p.1 == "widget")) :
    (respOf r₁ σ₁).body = (respOf r₂ σ₂).body := by
  rw [respOf_eq, respOf_eq]
  show renderDashboardTemplate (argsGet r₁.queryParams "widget" defaultWidget)
      = renderDashboardTemplate (argsGet r₂.queryParams "widget" defaultWidget)
  unfold argsGet
  rw [h]

/-- Witness for C10: two requests with equal `widget` but different extra
parameters, headers and states yield the same body. -/
theorem c10_witness :
    (respOf ⟨[("widget", "a"), ("x", "1")], [("h", "1")]⟩ ⟨[]⟩).body
      = (respOf ⟨[("widget", "a")], [("h", "2")]⟩ ⟨["boot"]⟩).body :=
  c10_noninterference ⟨[("widget", "a"), ("x", "1")], [("h", "1")]⟩
    ⟨[("widget", "a")], [("h", "2")]⟩ ⟨[]⟩ ⟨["boot"]⟩ rfl

end BioDrop
